import Mathlib

/-!
# Verification of the ESP32 EthernetManager connection state machine

Shallow embedding of the EthernetManager C++ implementation
(src/EthernetManager.cpp, EthernetManager.h, EthernetManagerConfig.h).

Modelling conventions:
* `uint32_t` values are `Nat`s reduced modulo `2^32` wherever the C code can
  overflow or wrap (counter increments, unsigned subtraction, delay doubling);
  `uint8_t` values are reduced modulo `2^8`.
* Each handler invocation reads the clock once: the several `millis()` calls
  inside one handler are modelled by a single `now` parameter.
* FreeRTOS objects are modelled by their observable state: the event group by
  an existence flag plus the `BIT_CONNECTED` bit, timers by existence /
  armed / period fields, callbacks by a registration flag plus an effects
  record listing the invocations the call performed.
* Mutex acquisitions are assumed to succeed (the sequential embedding models
  the serialized execution the lock enforces); external collaborators
  (`ETH.begin`, `ETH.config`, `ETH.linkUp`, the blocking wait outcome) are
  oracle parameters.
-/

namespace EthMgrModel

/-- `EthConnectionState` from EthernetManager.h. -/
inductive EthConnectionState where
  | UNINITIALIZED
  | PHY_STARTING
  | LINK_DOWN
  | LINK_UP
  | OBTAINING_IP
  | CONNECTED
  | DISCONNECTING
  | ERROR_STATE
deriving DecidableEq, Repr

/-- `EthError` from EthernetManager.h. -/
inductive EthError where
  | OK
  | INVALID_PARAMETER
  | MUTEX_TIMEOUT
  | ALREADY_INITIALIZED
  | NOT_INITIALIZED
  | PHY_START_FAILED
  | CONFIG_FAILED
  | CONNECTION_TIMEOUT
  | EVENT_HANDLER_FAILED
  | MEMORY_ALLOCATION_FAILED
  | NETIF_ERROR
  | UNKNOWN_ERROR
deriving DecidableEq, Repr

/-- `NetworkStats` from EthernetManager.h (all fields `uint32_t`). -/
structure NetworkStats where
  connectTime : Nat := 0
  disconnectCount : Nat := 0
  reconnectCount : Nat := 0
  txPackets : Nat := 0
  rxPackets : Nat := 0
  txBytes : Nat := 0
  rxBytes : Nat := 0
  linkDownEvents : Nat := 0
  dhcpRenewals : Nat := 0
  lastErrorCode : Nat := 0
  uptimeMs : Nat := 0
deriving DecidableEq, Repr

/-- Event bases delivered to `onEthEvent`; the C handler receives a
`const char*` base that may also be null, modelled by `Option EthEventBase`. -/
inductive EthEventBase where
  | IP_EVENT
  | ETH_EVENT
  | OTHER_EVENT
deriving DecidableEq, Repr

def wrap32 (n : Nat) : Nat := n % 4294967296

def wrap8 (n : Nat) : Nat := n % 256

/-- C `uint32_t` subtraction `a - b` (two's-complement wraparound). -/
def usub32 (a b : Nat) : Nat := (a % 4294967296 + (4294967296 - b % 4294967296)) % 4294967296

/-- Constants from EthernetManagerConfig.h and the platform headers. -/
def ETH_CONNECTION_TRUST_WINDOW_MS : Nat := 3000
def ETH_MAX_PHY_ADDRESS : Int := 31
def ETH_MAX_HOSTNAME_LENGTH : Nat := 63
def ETH_WAIT_CHUNK_MS : Nat := 100
def GPIO_NUM_MAX : Int := 40

/-- Event ids (`eth_event_t` from esp_eth.h and the `IP_EVENT_GOT_IP`
fallback macro in EthernetManager.cpp). -/
def ETHERNET_EVENT_START : Int := 0
def ETHERNET_EVENT_STOP : Int := 1
def ETHERNET_EVENT_CONNECTED : Int := 2
def ETHERNET_EVENT_DISCONNECTED : Int := 3
def IP_EVENT_GOT_IP : Int := 4

/-- State of the `EthernetManager` singleton: the private fields of the class
that the verified operations read or write. -/
structure EthMgr where
  ethEventGroupExists : Bool
  bitConnected : Bool
  lastGotIpTime : Nat
  connectionStartTime : Nat
  gotIpAtLeastOnce : Bool
  phyStarted : Bool
  eventHandlersRegistered : Bool
  hasCustomMac : Bool
  netifCreated : Bool
  mutexCreated : Bool
  lastError : EthError
  stats : NetworkStats
  connectedCallbackSet : Bool
  disconnectedCallbackSet : Bool
  stateChangeCallbackSet : Bool
  linkStatusCallbackSet : Bool
  autoReconnectEnabled : Bool
  reconnectMaxRetries : Nat
  reconnectAttempts : Nat
  reconnectInitialDelay : Nat
  reconnectMaxDelay : Nat
  reconnectCurrentDelay : Nat
  reconnectTimerExists : Bool
  reconnectTimerArmed : Bool
  reconnectTimerPeriod : Nat
  connectionState : EthConnectionState
  previousState : EthConnectionState
  linkMonitoringEnabled : Bool
  linkMonitoringInterval : Nat
  linkMonitorTimerExists : Bool
  lastLinkStatus : Bool
  initStartTime : Nat
  linkUpTime : Nat
  ipObtainedTime : Nat
  totalEventCount : Nat
deriving DecidableEq, Repr

/-- The just-constructed manager: the constructor creates the mutex and the
event group; every other field has its in-class initializer value. -/
def mkEthMgr : EthMgr where
  ethEventGroupExists := true
  bitConnected := false
  lastGotIpTime := 0
  connectionStartTime := 0
  gotIpAtLeastOnce := false
  phyStarted := false
  eventHandlersRegistered := false
  hasCustomMac := false
  netifCreated := false
  mutexCreated := true
  lastError := .OK
  stats := {}
  connectedCallbackSet := false
  disconnectedCallbackSet := false
  stateChangeCallbackSet := false
  linkStatusCallbackSet := false
  autoReconnectEnabled := false
  reconnectMaxRetries := 0
  reconnectAttempts := 0
  reconnectInitialDelay := 1000
  reconnectMaxDelay := 30000
  reconnectCurrentDelay := 1000
  reconnectTimerExists := false
  reconnectTimerArmed := false
  reconnectTimerPeriod := 0
  connectionState := .UNINITIALIZED
  previousState := .UNINITIALIZED
  linkMonitoringEnabled := false
  linkMonitoringInterval := 1000
  linkMonitorTimerExists := false
  lastLinkStatus := false
  initStartTime := 0
  linkUpTime := 0
  ipObtainedTime := 0
  totalEventCount := 0

/-- Externally observable side effects of one call: callback invocations and
timer arming performed by the operation. -/
structure EthEffects where
  stateChangeCalls : List (EthConnectionState × EthConnectionState) := []
  connectedCbCalled : Bool := false
  disconnectedCbDuration : Option Nat := none
  linkStatusCbCalls : List Bool := []
  reconnectTimerStarted : Bool := false
deriving DecidableEq, Repr

def noEffects : EthEffects := {}

/-- `EthernetManager::isConnected`: quick check without the mutex. -/
def isConnected (m : EthMgr) : Bool :=
  if !m.phyStarted || !m.ethEventGroupExists then false
  else m.bitConnected

/-- `EthernetManager::changeState`: no-op on self-transition; otherwise
records previous/current state, invokes the state-change callback, and
stamps the milestone timestamp of the entered state. Returns the updated
manager and the list of state-change callback invocations. -/
def changeState (m : EthMgr) (now : Nat) (newState : EthConnectionState) :
    EthMgr × List (EthConnectionState × EthConnectionState) :=
  if newState = m.connectionState then (m, [])
  else
    let old := m.connectionState
    let m1 := { m with previousState := old, connectionState := newState }
    let calls := if m1.stateChangeCallbackSet then [(old, newState)] else []
    let m2 :=
      match newState with
      | .PHY_STARTING => { m1 with initStartTime := now }
      | .LINK_UP => { m1 with linkUpTime := now }
      | .CONNECTED => { m1 with ipObtainedTime := now }
      | _ => m1
    (m2, calls)

/-- `EthernetManager::updateLinkStatus`; `ethLinkUp` is the oracle value of
`ETH.linkUp()`. -/
def updateLinkStatus (m : EthMgr) (now : Nat) (ethLinkUp : Bool) : EthMgr × EthEffects :=
  if !m.phyStarted then (m, noEffects)
  else if ethLinkUp ≠ m.lastLinkStatus then
    let m1 := { m with lastLinkStatus := ethLinkUp }
    if !ethLinkUp then
      let cs := changeState m1 now .LINK_DOWN
      let m3 := { cs.1 with stats :=
        { cs.1.stats with linkDownEvents := wrap32 (cs.1.stats.linkDownEvents + 1) } }
      (m3, { noEffects with
               stateChangeCalls := cs.2,
               linkStatusCbCalls := if m3.linkStatusCallbackSet then [ethLinkUp] else [] })
    else
      let target := if isConnected m1 then EthConnectionState.CONNECTED
                    else EthConnectionState.LINK_UP
      let cs := changeState m1 now target
      (cs.1, { noEffects with
                 stateChangeCalls := cs.2,
                 linkStatusCbCalls := if cs.1.linkStatusCallbackSet then [ethLinkUp] else [] })
  else (m, noEffects)

/-- Classification part of `EthernetManager::onEthEvent`, executed after the
`totalEventCount` increment. `b` is the (non-null) event base, `id` the event
id, `ethLinkUp` the oracle for the `ETH.linkUp()` read that
`updateLinkStatus` performs in the link-established branch. -/
def onEthEventBody (m : EthMgr) (now : Nat) (b : EthEventBase) (id : Int)
    (ethLinkUp : Bool) : EthMgr × EthEffects :=
  if b = .IP_EVENT ∧ id = IP_EVENT_GOT_IP then
    let m1 := { m with gotIpAtLeastOnce := true, lastGotIpTime := now }
    let m2 := { m1 with
                  stats := { m1.stats with
                               connectTime := now,
                               reconnectCount := if m1.stats.disconnectCount > 0
                                 then wrap32 (m1.stats.reconnectCount + 1)
                                 else m1.stats.reconnectCount } }
    let m3 := { m2 with
                  reconnectAttempts := 0,
                  reconnectCurrentDelay := m2.reconnectInitialDelay }
    let cs := changeState m3 now .CONNECTED
    let m5 := { cs.1 with bitConnected := true }
    (m5, { noEffects with
             stateChangeCalls := cs.2,
             connectedCbCalled := m5.connectedCallbackSet })
  else if b = .ETH_EVENT then
    if id = ETHERNET_EVENT_START then
      (m, noEffects)
    else if id = ETHERNET_EVENT_CONNECTED then
      let m1 := { m with connectionStartTime := now }
      let cs := changeState m1 now .OBTAINING_IP
      let ul := updateLinkStatus cs.1 now ethLinkUp
      (ul.1, { ul.2 with stateChangeCalls := cs.2 ++ ul.2.stateChangeCalls })
    else if id = ETHERNET_EVENT_DISCONNECTED ∨ id = ETHERNET_EVENT_STOP then
      if !m.gotIpAtLeastOnce then (m, noEffects)
      else if usub32 now m.connectionStartTime < ETH_CONNECTION_TRUST_WINDOW_MS then
        (m, noEffects)
      else
        let m1 := { m with gotIpAtLeastOnce := false, bitConnected := false }
        let cs := changeState m1 now .LINK_DOWN
        let m3 := { cs.1 with
                      stats := { cs.1.stats with
                                   disconnectCount := wrap32 (cs.1.stats.disconnectCount + 1),
                                   linkDownEvents := wrap32 (cs.1.stats.linkDownEvents + 1) } }
        let dur := usub32 now m3.stats.connectTime
        let arm := m3.autoReconnectEnabled && m3.reconnectTimerExists
        let m4 := { m3 with reconnectTimerArmed := if arm then true else m3.reconnectTimerArmed }
        (m4, { noEffects with
                 stateChangeCalls := cs.2,
                 disconnectedCbDuration := if m4.disconnectedCallbackSet then some dur else none,
                 reconnectTimerStarted := arm })
    else (m, noEffects)
  else (m, noEffects)

/-- `EthernetManager::onEthEvent`: the event-bridge entry point. Returns
before the `totalEventCount` increment when the base is null or the event
group does not exist; otherwise increments the counter and classifies. -/
def onEthEvent (m : EthMgr) (now : Nat) (base : Option EthEventBase) (id : Int)
    (ethLinkUp : Bool) : EthMgr × EthEffects :=
  match base with
  | none => (m, noEffects)
  | some b =>
    if !m.ethEventGroupExists then (m, noEffects)
    else
      onEthEventBody { m with totalEventCount := wrap32 (m.totalEventCount + 1) }
        now b id ethLinkUp

/-- `EthernetManager::setAutoReconnect`: stores the settings, resets the
attempt counter and current delay, and creates the (dormant) one-shot
reconnect timer when enabling for the first time. -/
def setAutoReconnect (m : EthMgr) (enable : Bool) (maxRetries initialDelayMs maxDelayMs : Nat) :
    EthMgr :=
  let m1 := { m with
                autoReconnectEnabled := enable,
                reconnectMaxRetries := wrap8 maxRetries,
                reconnectInitialDelay := wrap32 initialDelayMs,
                reconnectMaxDelay := wrap32 maxDelayMs,
                reconnectAttempts := 0,
                reconnectCurrentDelay := wrap32 initialDelayMs }
  if enable && !m1.reconnectTimerExists then
    { m1 with
        reconnectTimerExists := true,
        reconnectTimerPeriod := wrap32 initialDelayMs,
        reconnectTimerArmed := false }
  else m1

/-- `EthernetManager::attemptReconnect`: the reconnect-timer callback. The
one-shot timer is dormant when the callback runs; on the exceeded-retries
path it is not restarted, otherwise `xTimerChangePeriod`/`xTimerStart`
re-arm it with the doubled (capped) delay. -/
def attemptReconnect (m : EthMgr) : EthMgr :=
  let m1 := { m with reconnectAttempts := wrap8 (m.reconnectAttempts + 1) }
  if m1.reconnectMaxRetries > 0 ∧ m1.reconnectAttempts > m1.reconnectMaxRetries then
    { m1 with autoReconnectEnabled := false, reconnectTimerArmed := false }
  else
    let d := min (wrap32 (m1.reconnectCurrentDelay * 2)) m1.reconnectMaxDelay
    { m1 with
        reconnectCurrentDelay := d,
        reconnectTimerPeriod := if m1.reconnectTimerExists then d else m1.reconnectTimerPeriod,
        reconnectTimerArmed := m1.reconnectTimerExists }

/-- State after `k` firings of the reconnect timer callback. -/
def reconnectRun (m : EthMgr) : Nat → EthMgr
  | 0 => m
  | k + 1 => attemptReconnect (reconnectRun m k)

/-- Whether the reconnect timer actually fires at least `k` times from `m`:
each firing requires the timer to be armed when it is due. -/
def reconnectFiresTimes (m : EthMgr) : Nat → Bool
  | 0 => true
  | k + 1 => reconnectFiresTimes m k && (reconnectRun m k).reconnectTimerArmed

/-- The delay before the `k`-th firing (1-indexed): the timer period in force
after `k - 1` firings. -/
def delayOfFire (m : EthMgr) (k : Nat) : Nat :=
  (reconnectRun m (k - 1)).reconnectTimerPeriod

/-- The manager state at the start of a backoff run: `setAutoReconnect(true,
N, D, M)` on a fresh manager followed by the `xTimerStart` that the
confirmed-disconnect branch of `onEthEvent` performs. -/
def reconnectInit (N D M : Nat) : EthMgr :=
  let m := setAutoReconnect mkEthMgr true N D M
  if m.autoReconnectEnabled && m.reconnectTimerExists then
    { m with reconnectTimerArmed := true }
  else m

/-- `EthernetManager::cleanup` (assuming the guard acquisition succeeds):
unregisters handlers, clears session flags, deletes the event group and both
timers, clears the callbacks, resets the state machine and statistics. The
mutex is not deleted. -/
def cleanup (m : EthMgr) : EthMgr :=
  { m with
      eventHandlersRegistered := false,
      phyStarted := false,
      gotIpAtLeastOnce := false,
      hasCustomMac := false,
      netifCreated := false,
      lastGotIpTime := 0,
      connectionStartTime := 0,
      ethEventGroupExists := false,
      bitConnected := false,
      reconnectTimerExists := false,
      reconnectTimerArmed := false,
      linkMonitorTimerExists := false,
      connectedCallbackSet := false,
      disconnectedCallbackSet := false,
      stateChangeCallbackSet := false,
      linkStatusCallbackSet := false,
      connectionState := .UNINITIALIZED,
      previousState := .UNINITIALIZED,
      stats := {},
      lastError := .OK }

/-- Outcome of an internal initialization call: the boolean result the
function returns, the manager state it leaves behind, whether the transceiver
bring-up capability (`ETH.begin`) was invoked, and the state-change callback
invocations performed. -/
structure InitResult where
  ok : Bool
  mgr : EthMgr
  ethBeginCalled : Bool
  stateCalls : List (EthConnectionState × EthConnectionState) := []
deriving DecidableEq, Repr

/-- `EthernetManager::earlyInit` (event-loop creation and handler
registration assumed to succeed, as the claims do not depend on their
failure modes): verifies the mutex, recreates the event group if needed, and
registers the event handlers once. -/
def earlyInit (m : EthMgr) : Bool × EthMgr :=
  if !m.mutexCreated then
    (false, { m with lastError := .MEMORY_ALLOCATION_FAILED })
  else
    (true, { m with ethEventGroupExists := true, eventHandlersRegistered := true })

/-- `EthernetManager::internalInit`. `hostname = none` models a null
pointer. `ethBeginOk` is the oracle for `ETH.begin`, `waitOk` for the
blocking `waitForConnection(ETH_INIT_TIMEOUT_MS)` performed when
`waitForConn` is set. -/
def internalInit (m : EthMgr) (hostname : Option String)
    (phy_addr mdc_pin mdio_pin power_pin : Int) (customMacGiven : Bool)
    (waitForConn : Bool) (now : Nat) (ethBeginOk waitOk : Bool) : InitResult :=
  if m.phyStarted ∧ m.connectionState ≠ .UNINITIALIZED then
    { ok := false, mgr := { m with lastError := .ALREADY_INITIALIZED }, ethBeginCalled := false }
  else if hostname.getD "" = "" then
    let cs := changeState { m with lastError := EthError.INVALID_PARAMETER } now .ERROR_STATE
    { ok := false, mgr := cs.1, ethBeginCalled := false, stateCalls := cs.2 }
  else if (hostname.getD "").length > ETH_MAX_HOSTNAME_LENGTH then
    let cs := changeState { m with lastError := EthError.INVALID_PARAMETER } now .ERROR_STATE
    { ok := false, mgr := cs.1, ethBeginCalled := false, stateCalls := cs.2 }
  else if phy_addr < 0 ∨ phy_addr > ETH_MAX_PHY_ADDRESS then
    { ok := false, mgr := m, ethBeginCalled := false }
  else if mdc_pin < -1 ∨ mdc_pin ≥ GPIO_NUM_MAX then
    { ok := false, mgr := m, ethBeginCalled := false }
  else if mdio_pin < -1 ∨ mdio_pin ≥ GPIO_NUM_MAX then
    { ok := false, mgr := m, ethBeginCalled := false }
  else if power_pin < -1 ∨ power_pin ≥ GPIO_NUM_MAX then
    { ok := false, mgr := m, ethBeginCalled := false }
  else
    let eI :=
      if !m.mutexCreated || !m.ethEventGroupExists || !m.eventHandlersRegistered then
        earlyInit m
      else (true, m)
    if !eI.1 then
      { ok := false, mgr := eI.2, ethBeginCalled := false }
    else
      let m1 := { eI.2 with bitConnected := false }
      let m2 := if customMacGiven then { m1 with hasCustomMac := true } else m1
      let cs := changeState m2 now .PHY_STARTING
      if !ethBeginOk then
        let cs2 := changeState { cs.1 with lastError := EthError.PHY_START_FAILED } now .ERROR_STATE
        { ok := false, mgr := cs2.1, ethBeginCalled := true, stateCalls := cs.2 ++ cs2.2 }
      else
        let m4 := { cs.1 with phyStarted := true, netifCreated := true }
        if !waitForConn then
          { ok := true, mgr := m4, ethBeginCalled := true, stateCalls := cs.2 }
        else
          { ok := waitOk, mgr := m4, ethBeginCalled := true, stateCalls := cs.2 }

/-- `EthernetManager::internalInitStatic`. `IPAddress` values are modelled as
`Nat`s (`uint32_t`), `0` being the falsy unset address. `configOk` is the
oracle for `ETH.config`. -/
def internalInitStatic (m : EthMgr) (hostname : Option String)
    (local_ip gateway subnet dns1 dns2 : Nat)
    (phy_addr mdc_pin mdio_pin power_pin : Int) (ethBeginOk configOk waitOk : Bool) :
    InitResult :=
  if hostname.getD "" = "" then
    { ok := false, mgr := m, ethBeginCalled := false }
  else if local_ip = 0 then
    { ok := false, mgr := m, ethBeginCalled := false }
  else if gateway = 0 then
    { ok := false, mgr := m, ethBeginCalled := false }
  else if subnet = 0 then
    { ok := false, mgr := m, ethBeginCalled := false }
  else if phy_addr < 0 ∨ phy_addr > ETH_MAX_PHY_ADDRESS then
    { ok := false, mgr := m, ethBeginCalled := false }
  else if mdc_pin < -1 ∨ mdc_pin ≥ GPIO_NUM_MAX then
    { ok := false, mgr := m, ethBeginCalled := false }
  else if mdio_pin < -1 ∨ mdio_pin ≥ GPIO_NUM_MAX then
    { ok := false, mgr := m, ethBeginCalled := false }
  else if power_pin < -1 ∨ power_pin ≥ GPIO_NUM_MAX then
    { ok := false, mgr := m, ethBeginCalled := false }
  else
    let eI :=
      if !m.mutexCreated || !m.ethEventGroupExists || !m.eventHandlersRegistered then
        earlyInit m
      else (true, m)
    if !eI.1 then
      { ok := false, mgr := eI.2, ethBeginCalled := false }
    else
      let m1 := { eI.2 with bitConnected := false }
      if !(ethBeginOk && configOk) then
        { ok := false, mgr := m1, ethBeginCalled := true }
      else
        let m2 := { m1 with phyStarted := true, netifCreated := true }
        { ok := waitOk, mgr := m2, ethBeginCalled := true }

/-- The polling loop of `EthernetManager::waitForConnection`, using
structural fuel (each iteration advances elapsed time by at least 1 ms, so
`fuel = timeout_ms` never runs out before the loop condition exits). The
evolving shared state the loop observes — the `BIT_CONNECTED` bit and the
error-state escape — is abstracted as the time-indexed oracles `bitAt` and
`errAt`. -/
def waitLoop (bitAt errAt : Nat → Bool) (timeout_ms : Nat) :
    Nat → Nat → EthError × Nat
  | elapsed, 0 => (.CONNECTION_TIMEOUT, elapsed)
  | elapsed, fuel + 1 =>
    if elapsed < timeout_ms then
      let remaining := timeout_ms - elapsed
      let waitTime := if remaining > ETH_WAIT_CHUNK_MS then ETH_WAIT_CHUNK_MS else remaining
      let e2 := elapsed + waitTime
      if bitAt e2 then (.OK, e2)
      else if errAt e2 then (.CONNECTION_TIMEOUT, e2)
      else waitLoop bitAt errAt timeout_ms e2 fuel
    else (.CONNECTION_TIMEOUT, elapsed)

/-- `EthernetManager::waitForConnection`: returns the resulting error code
and the total time spent blocked in the polling loop. -/
def waitForConnection (m : EthMgr) (timeout_ms : Nat) (bitAt errAt : Nat → Bool) :
    EthError × Nat :=
  if timeout_ms = 0 then (.INVALID_PARAMETER, 0)
  else if isConnected m then (.OK, 0)
  else if !m.ethEventGroupExists then (.NOT_INITIALIZED, 0)
  else if !m.phyStarted then (.NOT_INITIALIZED, 0)
  else waitLoop bitAt errAt timeout_ms 0 timeout_ms

/-- Replay of a list of `(time, target state)` transition requests through
`changeState` (used to exhibit milestone re-recording). -/
def csRun (m : EthMgr) : List (Nat × EthConnectionState) → EthMgr
  | [] => m
  | (t, s) :: rest => csRun (changeState m t s).1 rest

/-- A manager in a stably connected session: PHY started, address acquired
at `connectionStartTime = 1000`, two past disconnects on record. -/
def mConn : EthMgr :=
  { mkEthMgr with
      phyStarted := true, eventHandlersRegistered := true,
      gotIpAtLeastOnce := true, bitConnected := true,
      connectionState := .CONNECTED, connectionStartTime := 1000,
      stats := { connectTime := 4000, disconnectCount := 2, linkDownEvents := 5 } }

/-- A manager whose PHY has been started but which has not yet acquired an
address this session. -/
def mStarted : EthMgr :=
  { mkEthMgr with phyStarted := true, eventHandlersRegistered := true }

end EthMgrModel

namespace EthMgrModel

theorem wrap32_succ_of_lt {x : Nat} (h : x < 4294967295) : wrap32 (x + 1) = x + 1 := by
  unfold wrap32; omega

theorem usub32_eq_sub {a b : Nat} (hba : b ≤ a) (ha : a < 4294967296) :
    usub32 a b = a - b := by
  unfold usub32; omega

theorem changeState_totalEventCount (m : EthMgr) (now : Nat) (s : EthConnectionState) :
    (changeState m now s).1.totalEventCount = m.totalEventCount := by
  unfold changeState
  split
  · rfl
  · cases s <;> rfl

theorem changeState_stats (m : EthMgr) (now : Nat) (s : EthConnectionState) :
    (changeState m now s).1.stats = m.stats := by
  unfold changeState
  split
  · rfl
  · cases s <;> rfl

theorem changeState_connectionState (m : EthMgr) (now : Nat) (s : EthConnectionState) :
    (changeState m now s).1.connectionState = s := by
  unfold changeState
  split
  · next h => exact h.symm
  · cases s <;> rfl

theorem changeState_bitConnected (m : EthMgr) (now : Nat) (s : EthConnectionState) :
    (changeState m now s).1.bitConnected = m.bitConnected := by
  unfold changeState
  split
  · rfl
  · cases s <;> rfl

theorem changeState_lastError (m : EthMgr) (now : Nat) (s : EthConnectionState) :
    (changeState m now s).1.lastError = m.lastError := by
  unfold changeState
  split
  · rfl
  · cases s <;> rfl

theorem updateLinkStatus_totalEventCount (m : EthMgr) (now : Nat) (lu : Bool) :
    (updateLinkStatus m now lu).1.totalEventCount = m.totalEventCount := by
  unfold updateLinkStatus
  repeat' split
  all_goals simp [changeState_totalEventCount]

theorem onEthEventBody_totalEventCount (m : EthMgr) (now : Nat) (b : EthEventBase)
    (id : Int) (lu : Bool) :
    (onEthEventBody m now b id lu).1.totalEventCount = m.totalEventCount := by
  unfold onEthEventBody
  repeat' split
  all_goals simp [updateLinkStatus_totalEventCount, changeState_totalEventCount]

theorem attemptReconnect_step (m : EthMgr) (j N D M : Nat)
    (ha : m.reconnectAttempts = j) (hmr : m.reconnectMaxRetries = N)
    (hmd : m.reconnectMaxDelay = M) (hcd : m.reconnectCurrentDelay = min (2 ^ j * D) M)
    (ht : m.reconnectTimerExists = true)
    (hM : M < 2147483648) (hj : j + 1 ≤ N) (hN : N < 255) :
    (attemptReconnect m).reconnectAttempts = j + 1 ∧
    (attemptReconnect m).autoReconnectEnabled = m.autoReconnectEnabled ∧
    (attemptReconnect m).reconnectTimerExists = true ∧
    (attemptReconnect m).reconnectTimerArmed = true ∧
    (attemptReconnect m).reconnectMaxRetries = N ∧
    (attemptReconnect m).reconnectMaxDelay = M ∧
    (attemptReconnect m).reconnectCurrentDelay = min (2 ^ (j + 1) * D) M ∧
    (attemptReconnect m).reconnectTimerPeriod = min (2 ^ (j + 1) * D) M := by
  have hw8 : wrap8 (j + 1) = j + 1 := by unfold wrap8; omega
  have hcond : ¬ (N > 0 ∧ j + 1 > N) := by omega
  have hcap : min (2 ^ j * D) M ≤ M := Nat.min_le_right _ _
  have hnw : wrap32 (min (2 ^ j * D) M * 2) = min (2 ^ j * D) M * 2 := by
    unfold wrap32; omega
  have hmin : min (min (2 ^ j * D) M * 2) M = min (2 ^ (j + 1) * D) M := by
    rw [show 2 ^ (j + 1) * D = 2 ^ j * D * 2 from by ring]
    generalize 2 ^ j * D = a
    omega
  refine ⟨?_, ?_, ?_, ?_, ?_, ?_, ?_, ?_⟩ <;>
    simp [attemptReconnect, ha, hmr, hmd, hcd, ht, hw8, hcond, hnw, hmin]

theorem reconnectRun_inv (N D M : Nat) (hDM : D ≤ M) (hM : M < 2147483648)
    (hN : N < 255) :
    ∀ j, j ≤ N →
      (reconnectRun (reconnectInit N D M) j).reconnectAttempts = j ∧
      (reconnectRun (reconnectInit N D M) j).autoReconnectEnabled = true ∧
      (reconnectRun (reconnectInit N D M) j).reconnectTimerExists = true ∧
      (reconnectRun (reconnectInit N D M) j).reconnectTimerArmed = true ∧
      (reconnectRun (reconnectInit N D M) j).reconnectMaxRetries = N ∧
      (reconnectRun (reconnectInit N D M) j).reconnectMaxDelay = M ∧
      (reconnectRun (reconnectInit N D M) j).reconnectCurrentDelay = min (2 ^ j * D) M ∧
      (reconnectRun (reconnectInit N D M) j).reconnectTimerPeriod = min (2 ^ j * D) M := by
  have h8 : N % 256 = N := Nat.mod_eq_of_lt (by omega)
  have h32 : D % 4294967296 = D := Nat.mod_eq_of_lt (by omega)
  have hM32 : M % 4294967296 = M := Nat.mod_eq_of_lt (by omega)
  intro j
  induction j with
  | zero =>
    intro _
    refine ⟨?_, ?_, ?_, ?_, ?_, ?_, ?_, ?_⟩ <;>
      simp [reconnectRun, reconnectInit, setAutoReconnect, mkEthMgr, wrap8, wrap32,
        h8, h32, hM32, Nat.min_eq_left hDM]
  | succ j ih =>
    intro hj
    have hjN : j ≤ N := by omega
    obtain ⟨ha, he, ht, har, hmr, hmd, hcd, htp⟩ := ih hjN
    have hstep := attemptReconnect_step (reconnectRun (reconnectInit N D M) j) j N D M
      ha hmr hmd hcd ht hM hj hN
    obtain ⟨s1, s2, s3, s4, s5, s6, s7, s8⟩ := hstep
    exact ⟨s1, by rw [reconnectRun, s2, he], s3, s4, s5, s6, s7, s8⟩

theorem waitLoop_never_ok (bitAt errAt : Nat → Bool) (timeout : Nat)
    (h : ∀ t, bitAt t = false) :
    ∀ fuel elapsed, (waitLoop bitAt errAt timeout elapsed fuel).1 = .CONNECTION_TIMEOUT := by
  intro fuel
  induction fuel with
  | zero => intro e; simp [waitLoop]
  | succ fuel ih =>
    intro e
    rw [waitLoop]
    split
    · simp only [h, Bool.false_eq_true, if_false]
      split <;> split <;> first
        | rfl
        | exact ih _
    · rfl

theorem waitLoop_ne_invalid (bitAt errAt : Nat → Bool) (timeout : Nat) :
    ∀ fuel elapsed, (waitLoop bitAt errAt timeout elapsed fuel).1 ≠ .INVALID_PARAMETER := by
  intro fuel
  induction fuel with
  | zero => intro e; simp [waitLoop]
  | succ fuel ih =>
    intro e
    rw [waitLoop]
    split
    · dsimp only
      split <;> split <;> first
        | (split <;> first
            | exact ih _
            | simp)
        | simp
    · simp

end EthMgrModel

namespace EthMgrModel

/-- Claim C1: for a link-lost or PHY-stopped event delivered after an address
has been acquired this session, the event bridge ignores the event (state,
signal bit and statistics unchanged) when the elapsed time since
connectionStartTime is below the 3000 ms trust window, and otherwise
transitions to LINK_DOWN and increments disconnectCount and linkDownEvents
by exactly 1 each. -/
theorem c1_linkdown_trust_window (m : EthMgr) (now : Nat) (id : Int) (lu : Bool)
    (hgrp : m.ethEventGroupExists = true)
    (hip : m.gotIpAtLeastOnce = true)
    (hid : id = ETHERNET_EVENT_DISCONNECTED ∨ id = ETHERNET_EVENT_STOP)
    (hle : m.connectionStartTime ≤ now) (hnow : now < 4294967296)
    (hdc : m.stats.disconnectCount < 4294967295)
    (hld : m.stats.linkDownEvents < 4294967295) :
    (now - m.connectionStartTime < ETH_CONNECTION_TRUST_WINDOW_MS →
      (onEthEvent m now (some .ETH_EVENT) id lu).1.connectionState = m.connectionState ∧
      (onEthEvent m now (some .ETH_EVENT) id lu).1.bitConnected = m.bitConnected ∧
      (onEthEvent m now (some .ETH_EVENT) id lu).1.stats = m.stats) ∧
    (ETH_CONNECTION_TRUST_WINDOW_MS ≤ now - m.connectionStartTime →
      (onEthEvent m now (some .ETH_EVENT) id lu).1.connectionState = .LINK_DOWN ∧
      (onEthEvent m now (some .ETH_EVENT) id lu).1.stats.disconnectCount
        = m.stats.disconnectCount + 1 ∧
      (onEthEvent m now (some .ETH_EVENT) id lu).1.stats.linkDownEvents
        = m.stats.linkDownEvents + 1) := by
  have hsub : usub32 now m.connectionStartTime = now - m.connectionStartTime :=
    usub32_eq_sub hle hnow
  constructor
  · intro hwin
    have hwin3 : now - m.connectionStartTime < 3000 := hwin
    rcases hid with rfl | rfl <;>
      simp [onEthEvent, onEthEventBody, hgrp, hip, hsub, hwin3,
        ETHERNET_EVENT_DISCONNECTED, ETHERNET_EVENT_STOP, ETHERNET_EVENT_START,
        ETHERNET_EVENT_CONNECTED, IP_EVENT_GOT_IP, ETH_CONNECTION_TRUST_WINDOW_MS]
  · intro hwin
    have hwin3 : ¬ (now - m.connectionStartTime < 3000) := by
      have h3 : (3000 : Nat) ≤ now - m.connectionStartTime := hwin
      omega
    rcases hid with rfl | rfl <;>
      · simp [onEthEvent, onEthEventBody, hgrp, hip, hsub, hwin3,
          ETHERNET_EVENT_DISCONNECTED, ETHERNET_EVENT_STOP, ETHERNET_EVENT_START,
          ETHERNET_EVENT_CONNECTED, IP_EVENT_GOT_IP, ETH_CONNECTION_TRUST_WINDOW_MS,
          changeState_connectionState, changeState_stats]
        exact ⟨wrap32_succ_of_lt hdc, wrap32_succ_of_lt hld⟩

/-- Witness for C1: on the connected session state mConn
(connectionStartTime 1000, disconnectCount 2, linkDownEvents 5), a
disconnect at t = 2500 (elapsed 1500 ms, inside the window) is ignored, and
a disconnect at t = 4000 (elapsed 3000 ms, at the window boundary)
transitions to LINK_DOWN and bumps both counters to 3 and 6. -/
theorem c1_linkdown_trust_window_witness :
    ((onEthEvent mConn 2500 (some .ETH_EVENT) ETHERNET_EVENT_DISCONNECTED false).1.connectionState
        = mConn.connectionState ∧
      (onEthEvent mConn 2500 (some .ETH_EVENT) ETHERNET_EVENT_DISCONNECTED false).1.bitConnected
        = mConn.bitConnected ∧
      (onEthEvent mConn 2500 (some .ETH_EVENT) ETHERNET_EVENT_DISCONNECTED false).1.stats
        = mConn.stats) ∧
    ((onEthEvent mConn 4000 (some .ETH_EVENT) ETHERNET_EVENT_DISCONNECTED false).1.connectionState
        = .LINK_DOWN ∧
      (onEthEvent mConn 4000 (some .ETH_EVENT) ETHERNET_EVENT_DISCONNECTED false).1.stats.disconnectCount
        = mConn.stats.disconnectCount + 1 ∧
      (onEthEvent mConn 4000 (some .ETH_EVENT) ETHERNET_EVENT_DISCONNECTED false).1.stats.linkDownEvents
        = mConn.stats.linkDownEvents + 1) := by
  constructor
  · exact (c1_linkdown_trust_window mConn 2500 ETHERNET_EVENT_DISCONNECTED false
      (by decide) (by decide) (Or.inl rfl) (by decide) (by decide) (by decide)
      (by decide)).1 (by decide)
  · exact (c1_linkdown_trust_window mConn 4000 ETHERNET_EVENT_DISCONNECTED false
      (by decide) (by decide) (Or.inl rfl) (by decide) (by decide) (by decide)
      (by decide)).2 (by decide)

/-- Claim C3: a link-lost or PHY-stopped event delivered before any
address-acquired event in the current session is ignored entirely: the
returned manager differs only in the diagnostic total event counter, and no
callback is invoked. -/
theorem c3_startup_noise_ignored (m : EthMgr) (now : Nat) (id : Int) (lu : Bool)
    (hgrp : m.ethEventGroupExists = true)
    (hip : m.gotIpAtLeastOnce = false)
    (hid : id = ETHERNET_EVENT_DISCONNECTED ∨ id = ETHERNET_EVENT_STOP) :
    (onEthEvent m now (some .ETH_EVENT) id lu).1
      = { m with totalEventCount := wrap32 (m.totalEventCount + 1) } ∧
    (onEthEvent m now (some .ETH_EVENT) id lu).2 = noEffects := by
  rcases hid with rfl | rfl <;>
    simp [onEthEvent, onEthEventBody, hgrp, hip,
      ETHERNET_EVENT_DISCONNECTED, ETHERNET_EVENT_STOP, ETHERNET_EVENT_START,
      ETHERNET_EVENT_CONNECTED, IP_EVENT_GOT_IP]

/-- Witness for C3: a PHY-stopped event on the started-but-never-addressed
state mStarted changes nothing except the total event counter and produces
no effects. -/
theorem c3_startup_noise_ignored_witness :
    (onEthEvent mStarted 100 (some .ETH_EVENT) ETHERNET_EVENT_STOP false).1
      = { mStarted with totalEventCount := wrap32 (mStarted.totalEventCount + 1) } ∧
    (onEthEvent mStarted 100 (some .ETH_EVENT) ETHERNET_EVENT_STOP false).2 = noEffects :=
  c3_startup_noise_ignored mStarted 100 ETHERNET_EVENT_STOP false
    (by decide) (by decide) (Or.inr rfl)

end EthMgrModel

namespace EthMgrModel

/-- Counterexample to claim C9 as stated: an invocation of the event-bridge
entry point with a null event base returns before the counter increment, so
the total-event-processed counter does not change (it stays 0 on mConn),
contradicting the claim that every invocation increments it regardless of
the event base. -/
theorem c9_event_count_counterexample :
    (onEthEvent mConn 4000 none ETHERNET_EVENT_DISCONNECTED false).1.totalEventCount = 0 ∧
    mConn.totalEventCount = 0 := by
  exact ⟨rfl, rfl⟩

/-- Claim C9 (amended): an invocation of the event bridge with a non-null
base while the event group exists increments the total-event-processed
counter by exactly 1 (mod 2^32) regardless of classification; invocations
rejected by the validity guards (null base, or event group not created)
leave the manager unchanged. -/
theorem c9_event_count_amended (m : EthMgr) (now : Nat) (base : Option EthEventBase)
    (id : Int) (lu : Bool) :
    ((onEthEvent m now none id lu).1 = m ∧ (onEthEvent m now none id lu).2 = noEffects) ∧
    (m.ethEventGroupExists = false → (onEthEvent m now base id lu).1 = m) ∧
    (m.ethEventGroupExists = true → ∀ b, base = some b →
      (onEthEvent m now base id lu).1.totalEventCount = wrap32 (m.totalEventCount + 1)) := by
  refine ⟨⟨rfl, rfl⟩, ?_, ?_⟩
  · intro h
    cases base with
    | none => rfl
    | some b => simp [onEthEvent, h]
  · intro h b hb
    subst hb
    simp [onEthEvent, h, onEthEventBody_totalEventCount]

/-- Witness for C9 (amended): an unrecognized event (base some OTHER_EVENT,
id 99) on mStarted bumps the counter from 0 to 1; with the event group
deleted the same invocation leaves the manager unchanged. -/
theorem c9_event_count_amended_witness :
    (onEthEvent mStarted 5 (some .OTHER_EVENT) 99 false).1.totalEventCount
      = wrap32 (mStarted.totalEventCount + 1) ∧
    (onEthEvent { mkEthMgr with ethEventGroupExists := false } 5 (some .OTHER_EVENT) 99 false).1
      = { mkEthMgr with ethEventGroupExists := false } := by
  constructor
  · exact (c9_event_count_amended mStarted 5 (some .OTHER_EVENT) 99 false).2.2
      (by decide) .OTHER_EVENT rfl
  · exact (c9_event_count_amended { mkEthMgr with ethEventGroupExists := false } 5
      (some .OTHER_EVENT) 99 false).2.1 (by decide)

/-- Counterexample to claim C7 as stated: after PHY-start at t = 5 the
LINK_UP milestone is first recorded at t = 10; re-entering LINK_UP at t = 30
(after a LINK_DOWN dip at t = 20) re-records the milestone to 30 instead of
keeping the first-recorded value 10. -/
theorem c7_milestone_counterexample :
    (csRun mkEthMgr
      [(5, .PHY_STARTING), (10, .LINK_UP), (20, .LINK_DOWN), (30, .LINK_UP)]).linkUpTime
      = 30 ∧
    (csRun mkEthMgr
      [(5, .PHY_STARTING), (10, .LINK_UP), (20, .LINK_DOWN), (30, .LINK_UP)]).linkUpTime
      ≠ 10 := by
  exact ⟨rfl, by decide⟩

/-- Claim C7 (amended): changeState stamps the milestone timestamp of the
entered state on every actual transition into PHY_STARTING, LINK_UP or
CONNECTED — including re-entries, which overwrite the earlier value — and a
self-transition changes nothing; transitions into other states leave all
three milestones unchanged. -/
theorem c7_milestone_amended (m : EthMgr) (now : Nat) (s : EthConnectionState) :
    (s = m.connectionState → changeState m now s = (m, [])) ∧
    (s ≠ m.connectionState →
      (changeState m now s).1.connectionState = s ∧
      (s = .PHY_STARTING → (changeState m now s).1.initStartTime = now) ∧
      (s = .LINK_UP → (changeState m now s).1.linkUpTime = now) ∧
      (s = .CONNECTED → (changeState m now s).1.ipObtainedTime = now) ∧
      (s ≠ .PHY_STARTING → (changeState m now s).1.initStartTime = m.initStartTime) ∧
      (s ≠ .LINK_UP → (changeState m now s).1.linkUpTime = m.linkUpTime) ∧
      (s ≠ .CONNECTED → (changeState m now s).1.ipObtainedTime = m.ipObtainedTime)) := by
  constructor
  · intro h
    simp [changeState, h]
  · intro h
    refine ⟨changeState_connectionState m now s, ?_, ?_, ?_, ?_, ?_, ?_⟩ <;>
      intro hs <;>
      first
        | (subst hs; simp [changeState, h])
        | (cases s <;> simp_all [changeState])
end EthMgrModel

namespace EthMgrModel

/-- Witness for C7 (amended): on the fresh manager a transition into
LINK_UP at t = 42 records linkUpTime = 42 and leaves the other milestones
unchanged, and the self-transition into UNINITIALIZED is a no-op. -/
theorem c7_milestone_amended_witness :
    changeState mkEthMgr 42 .UNINITIALIZED = (mkEthMgr, []) ∧
    (changeState mkEthMgr 42 .LINK_UP).1.linkUpTime = 42 ∧
    (changeState mkEthMgr 42 .LINK_UP).1.initStartTime = mkEthMgr.initStartTime := by
  refine ⟨(c7_milestone_amended mkEthMgr 42 .UNINITIALIZED).1 (by decide), ?_, ?_⟩
  · exact ((c7_milestone_amended mkEthMgr 42 .LINK_UP).2 (by decide)).2.2.1 rfl
  · exact ((c7_milestone_amended mkEthMgr 42 .LINK_UP).2 (by decide)).2.2.2.2.1 (by decide)

/-- Counterexample to claim C8 as stated: cleanup deletes the connection
event group (the signal object), so the manager is not left in its
just-constructed logical state with the signal object intact — the freshly
constructed manager has an event group, the cleaned-up one does not. -/
theorem c8_cleanup_counterexample :
    (cleanup mkEthMgr).ethEventGroupExists = false ∧
    mkEthMgr.ethEventGroupExists = true := by
  exact ⟨rfl, rfl⟩

/-- Claim C8 (amended): cleanup resets the state machine to UNINITIALIZED,
zeroes the statistics, clears all callbacks and deletes both timers, and
preserves the mutex for the process lifetime, but it deletes the connection
event group (recreated by the next early initialization) rather than
keeping it. -/
theorem c8_cleanup_amended (m : EthMgr) :
    (cleanup m).connectionState = .UNINITIALIZED ∧
    (cleanup m).previousState = .UNINITIALIZED ∧
    (cleanup m).stats = {} ∧
    (cleanup m).lastError = .OK ∧
    (cleanup m).connectedCallbackSet = false ∧
    (cleanup m).disconnectedCallbackSet = false ∧
    (cleanup m).stateChangeCallbackSet = false ∧
    (cleanup m).linkStatusCallbackSet = false ∧
    (cleanup m).reconnectTimerExists = false ∧
    (cleanup m).linkMonitorTimerExists = false ∧
    (cleanup m).phyStarted = false ∧
    (cleanup m).gotIpAtLeastOnce = false ∧
    (cleanup m).eventHandlersRegistered = false ∧
    (cleanup m).mutexCreated = m.mutexCreated ∧
    (cleanup m).ethEventGroupExists = false := by
  refine ⟨rfl, rfl, rfl, rfl, rfl, rfl, rfl, rfl, rfl, rfl, rfl, rfl, rfl, rfl, rfl⟩

end EthMgrModel

namespace EthMgrModel

/-- Counterexample to claim C2 as stated, at maxRetries N = 1, initial delay
D = 2000, max delay M = 1000: the first firing delay is D = 2000, which
exceeds the claimed bound M = 1000; and after the 1st (= Nth) attempt the
timer is re-armed and fires a second time, contradicting that no reconnect
timer fires after the Nth attempt. -/
theorem c2_backoff_counterexample :
    delayOfFire (reconnectInit 1 2000 1000) 1 = 2000 ∧
    ¬ delayOfFire (reconnectInit 1 2000 1000) 1 ≤ 1000 ∧
    reconnectFiresTimes (reconnectInit 1 2000 1000) 2 = true := by
  decide

/-- Claim C2 (amended): for initial delay D ≤ max delay M < 2^31 (no 32-bit
overflow in the doubling) and 0 < maxRetries N < 255 (no 8-bit wrap of the
attempt counter), the delay before the k-th firing is min(2^(k-1) D, M)
(that is D, min(2D,M), min(4D,M), ...), monotonically non-decreasing and
bounded by M; the timer fires exactly N + 1 times: the (N+1)-th firing only
disables auto-reconnect and does not reschedule, so no firing follows it. -/
theorem c2_backoff_amended (N D M : Nat) (hDM : D ≤ M) (hM : M < 2147483648)
    (hN0 : 0 < N) (hN : N < 255) :
    (∀ k, 1 ≤ k → k ≤ N + 1 →
       delayOfFire (reconnectInit N D M) k = min (2 ^ (k - 1) * D) M) ∧
    delayOfFire (reconnectInit N D M) 1 = D ∧
    (∀ k, 1 ≤ k → k ≤ N →
       delayOfFire (reconnectInit N D M) k ≤ delayOfFire (reconnectInit N D M) (k + 1)) ∧
    (∀ k, 1 ≤ k → k ≤ N + 1 → delayOfFire (reconnectInit N D M) k ≤ M) ∧
    reconnectFiresTimes (reconnectInit N D M) (N + 1) = true ∧
    (reconnectRun (reconnectInit N D M) (N + 1)).reconnectTimerArmed = false ∧
    (reconnectRun (reconnectInit N D M) (N + 1)).autoReconnectEnabled = false ∧
    reconnectFiresTimes (reconnectInit N D M) (N + 2) = false := by
  have hinv := reconnectRun_inv N D M hDM hM hN
  have hformula : ∀ k, 1 ≤ k → k ≤ N + 1 →
      delayOfFire (reconnectInit N D M) k = min (2 ^ (k - 1) * D) M := by
    intro k hk1 hk2
    have hper := (hinv (k - 1) (by omega)).2.2.2.2.2.2.2
    unfold delayOfFire
    exact hper
  refine ⟨hformula, ?_, ?_, ?_, ?_, ?_, ?_, ?_⟩
  · rw [hformula 1 le_rfl (by omega)]
    simp [Nat.min_eq_left hDM]
  · intro k hk1 hk2
    rw [hformula k hk1 (by omega), hformula (k + 1) (by omega) (by omega)]
    have hpow : 2 ^ (k - 1) * D ≤ 2 ^ (k + 1 - 1) * D := by
      have hple : 2 ^ (k - 1) ≤ 2 ^ (k + 1 - 1) :=
        Nat.pow_le_pow_right (by norm_num) (by omega)
      exact Nat.mul_le_mul_right D hple
    exact min_le_min hpow le_rfl
  · intro k hk1 hk2
    rw [hformula k hk1 hk2]
    exact Nat.min_le_right _ _
  · have aux : ∀ k, k ≤ N + 1 → reconnectFiresTimes (reconnectInit N D M) k = true := by
      intro k
      induction k with
      | zero => intro _; rfl
      | succ k ih =>
        intro hk
        have harm : (reconnectRun (reconnectInit N D M) k).reconnectTimerArmed = true :=
          (hinv k (by omega)).2.2.2.1
        rw [reconnectFiresTimes, ih (by omega), harm]
        rfl
    exact aux (N + 1) le_rfl
  · obtain ⟨ha, he, ht, har, hmr, hmd, hcd, htp⟩ := hinv N le_rfl
    have hw8 : wrap8 (N + 1) = N + 1 := by unfold wrap8; omega
    have hcond : N > 0 ∧ N + 1 > N := ⟨hN0, by omega⟩
    show (attemptReconnect (reconnectRun (reconnectInit N D M) N)).reconnectTimerArmed = false
    simp [attemptReconnect, ha, hmr, hw8, hcond]
  · obtain ⟨ha, he, ht, har, hmr, hmd, hcd, htp⟩ := hinv N le_rfl
    have hw8 : wrap8 (N + 1) = N + 1 := by unfold wrap8; omega
    have hcond : N > 0 ∧ N + 1 > N := ⟨hN0, by omega⟩
    show (attemptReconnect (reconnectRun (reconnectInit N D M) N)).autoReconnectEnabled = false
    simp [attemptReconnect, ha, hmr, hw8, hcond]
  · have harm : (reconnectRun (reconnectInit N D M) (N + 1)).reconnectTimerArmed = false := by
      obtain ⟨ha, he, ht, har, hmr, hmd, hcd, htp⟩ := hinv N le_rfl
      have hw8 : wrap8 (N + 1) = N + 1 := by unfold wrap8; omega
      have hcond : N > 0 ∧ N + 1 > N := ⟨hN0, by omega⟩
      show (attemptReconnect (reconnectRun (reconnectInit N D M) N)).reconnectTimerArmed = false
      simp [attemptReconnect, ha, hmr, hw8, hcond]
    rw [reconnectFiresTimes, harm]
    simp

/-- Witness for C2 (amended) at N = 2, D = 1000, M = 30000: delays 1000,
2000, 4000; the timer fires exactly 3 times and not a 4th time. -/
theorem c2_backoff_amended_witness :
    delayOfFire (reconnectInit 2 1000 30000) 1 = 1000 ∧
    delayOfFire (reconnectInit 2 1000 30000) 2 = 2000 ∧
    delayOfFire (reconnectInit 2 1000 30000) 3 = 4000 ∧
    reconnectFiresTimes (reconnectInit 2 1000 30000) 3 = true ∧
    reconnectFiresTimes (reconnectInit 2 1000 30000) 4 = false := by
  have h := c2_backoff_amended 2 1000 30000 (by decide) (by decide) (by decide) (by decide)
  refine ⟨h.2.1, ?_, ?_, h.2.2.2.2.1, h.2.2.2.2.2.2.2⟩
  · rw [h.1 2 (by decide) (by decide)]
    decide
  · rw [h.1 3 (by decide) (by decide)]
    decide

end EthMgrModel

namespace EthMgrModel

/-- Counterexample to claim C4 as stated: the static-IP initialization
variant performs no already-initialized check — called on the connected
state mConn with valid parameters it proceeds to invoke ETH.begin and
succeeds, instead of returning the AlreadyInitialized error. -/
theorem c4_already_initialized_counterexample :
    (internalInitStatic mConn (some "esp32") 1 1 1 0 0 0 23 18 (-1) true true true).ethBeginCalled
      = true ∧
    (internalInitStatic mConn (some "esp32") 1 1 1 0 0 0 23 18 (-1) true true true).ok = true ∧
    (internalInitStatic mConn (some "esp32") 1 1 1 0 0 0 23 18 (-1) true true true).mgr.lastError
      ≠ EthError.ALREADY_INITIALIZED := by
  decide

/-- Claim C4 (amended): the dynamic-path initialization variants (initialize
and initializeAsync, via internalInit) called while the manager is in a
started state return the AlreadyInitialized error without invoking ETH.begin
and leave everything except lastError — in particular the connection state
and the statistics counters — unchanged; the static-IP variant performs no
such check. -/
theorem c4_already_initialized_dynamic (m : EthMgr) (hostname : Option String)
    (pa mdc mdio pw : Int) (cm wfc : Bool) (now : Nat) (bOk wOk : Bool)
    (h1 : m.phyStarted = true) (h2 : m.connectionState ≠ .UNINITIALIZED) :
    internalInit m hostname pa mdc mdio pw cm wfc now bOk wOk
      = { ok := false, mgr := { m with lastError := .ALREADY_INITIALIZED },
          ethBeginCalled := false } ∧
    (internalInit m hostname pa mdc mdio pw cm wfc now bOk wOk).mgr.connectionState
      = m.connectionState ∧
    (internalInit m hostname pa mdc mdio pw cm wfc now bOk wOk).mgr.stats = m.stats := by
  have heq : internalInit m hostname pa mdc mdio pw cm wfc now bOk wOk
      = { ok := false, mgr := { m with lastError := .ALREADY_INITIALIZED },
          ethBeginCalled := false } := by
    simp [internalInit, h1, h2]
  refine ⟨heq, ?_, ?_⟩ <;> rw [heq]

/-- Witness for C4 (amended): a second dynamic initialization on the
connected state mConn returns AlreadyInitialized with no other change. -/
theorem c4_already_initialized_dynamic_witness :
    internalInit mConn (some "esp32") 0 23 18 (-1) false true 0 true true
      = { ok := false, mgr := { mConn with lastError := .ALREADY_INITIALIZED },
          ethBeginCalled := false } ∧
    (internalInit mConn (some "esp32") 0 23 18 (-1) false true 0 true true).mgr.connectionState
      = mConn.connectionState ∧
    (internalInit mConn (some "esp32") 0 23 18 (-1) false true 0 true true).mgr.stats
      = mConn.stats :=
  c4_already_initialized_dynamic mConn (some "esp32") 0 23 18 (-1) false true 0 true true
    (by decide) (by decide)

end EthMgrModel

namespace EthMgrModel

/-- Counterexample to claim C5 as stated: an initialization with an invalid
PHY address (32, outside 0..31) on the fresh manager returns failure before
ETH.begin but records no error code (lastError stays OK) and performs no
transition to ERROR_STATE (the state stays UNINITIALIZED). -/
theorem c5_invalid_parameter_counterexample :
    (internalInit mkEthMgr (some "esp32") 32 23 18 (-1) false true 0 true true).ok = false ∧
    (internalInit mkEthMgr (some "esp32") 32 23 18 (-1) false true 0 true true).ethBeginCalled
      = false ∧
    (internalInit mkEthMgr (some "esp32") 32 23 18 (-1) false true 0 true true).mgr.lastError
      ≠ EthError.INVALID_PARAMETER ∧
    (internalInit mkEthMgr (some "esp32") 32 23 18 (-1) false true 0 true true).mgr.connectionState
      ≠ EthConnectionState.ERROR_STATE := by
  decide

/-- Claim C5 (amended): every initialization call with an invalid parameter
returns failure before ETH.begin is invoked; a null, empty or over-length
hostname on the dynamic path additionally records INVALID_PARAMETER and
transitions to ERROR_STATE, while PHY-address and pin violations on the
dynamic path, and all validation failures on the static path, return with
the manager completely unchanged (no error code recorded, no state
transition). -/
theorem c5_invalid_parameter_amended (m : EthMgr) (hostname : Option String)
    (pa mdc mdio pw : Int) (cm wfc : Bool) (now : Nat) (bOk wOk : Bool)
    (lip gw sn d1 d2 : Nat) (bOk2 cOk wOk2 : Bool)
    (hnot : m.phyStarted = false) :
    (hostname.getD "" = "" ∨ (hostname.getD "").length > ETH_MAX_HOSTNAME_LENGTH →
      (internalInit m hostname pa mdc mdio pw cm wfc now bOk wOk).ok = false ∧
      (internalInit m hostname pa mdc mdio pw cm wfc now bOk wOk).ethBeginCalled = false ∧
      (internalInit m hostname pa mdc mdio pw cm wfc now bOk wOk).mgr.lastError
        = .INVALID_PARAMETER ∧
      (internalInit m hostname pa mdc mdio pw cm wfc now bOk wOk).mgr.connectionState
        = .ERROR_STATE) ∧
    (¬ hostname.getD "" = "" → ¬ (hostname.getD "").length > ETH_MAX_HOSTNAME_LENGTH →
      (pa < 0 ∨ pa > ETH_MAX_PHY_ADDRESS ∨ mdc < -1 ∨ mdc ≥ GPIO_NUM_MAX ∨
       mdio < -1 ∨ mdio ≥ GPIO_NUM_MAX ∨ pw < -1 ∨ pw ≥ GPIO_NUM_MAX) →
      internalInit m hostname pa mdc mdio pw cm wfc now bOk wOk
        = { ok := false, mgr := m, ethBeginCalled := false }) ∧
    (hostname.getD "" = "" ∨ lip = 0 ∨ gw = 0 ∨ sn = 0 ∨
     pa < 0 ∨ pa > ETH_MAX_PHY_ADDRESS ∨ mdc < -1 ∨ mdc ≥ GPIO_NUM_MAX ∨
     mdio < -1 ∨ mdio ≥ GPIO_NUM_MAX ∨ pw < -1 ∨ pw ≥ GPIO_NUM_MAX →
      internalInitStatic m hostname lip gw sn d1 d2 pa mdc mdio pw bOk2 cOk wOk2
        = { ok := false, mgr := m, ethBeginCalled := false }) := by
  have hni : ¬ (m.phyStarted ∧ m.connectionState ≠ .UNINITIALIZED) := by
    simp [hnot]
  refine ⟨?_, ?_, ?_⟩
  · intro hh
    by_cases he : hostname.getD "" = ""
    · unfold internalInit
      rw [if_neg hni, if_pos he]
      exact ⟨rfl, rfl,
        by rw [changeState_lastError],
        changeState_connectionState _ now .ERROR_STATE⟩
    · have hlen : (hostname.getD "").length > ETH_MAX_HOSTNAME_LENGTH := by tauto
      unfold internalInit
      rw [if_neg hni, if_neg he, if_pos hlen]
      exact ⟨rfl, rfl,
        by rw [changeState_lastError],
        changeState_connectionState _ now .ERROR_STATE⟩
  · intro he hlen hbad
    unfold internalInit
    rw [if_neg hni, if_neg he, if_neg hlen]
    by_cases h1 : pa < 0 ∨ pa > ETH_MAX_PHY_ADDRESS
    · rw [if_pos h1]
    · rw [if_neg h1]
      by_cases h2 : mdc < -1 ∨ mdc ≥ GPIO_NUM_MAX
      · rw [if_pos h2]
      · rw [if_neg h2]
        by_cases h3 : mdio < -1 ∨ mdio ≥ GPIO_NUM_MAX
        · rw [if_pos h3]
        · rw [if_neg h3]
          by_cases h4 : pw < -1 ∨ pw ≥ GPIO_NUM_MAX
          · rw [if_pos h4]
          · exact absurd hbad (by tauto)
  · intro hbad
    unfold internalInitStatic
    by_cases h0 : hostname.getD "" = ""
    · rw [if_pos h0]
    · rw [if_neg h0]
      by_cases ha : lip = 0
      · rw [if_pos ha]
      · rw [if_neg ha]
        by_cases hb : gw = 0
        · rw [if_pos hb]
        · rw [if_neg hb]
          by_cases hc : sn = 0
          · rw [if_pos hc]
          · rw [if_neg hc]
            by_cases h1 : pa < 0 ∨ pa > ETH_MAX_PHY_ADDRESS
            · rw [if_pos h1]
            · rw [if_neg h1]
              by_cases h2 : mdc < -1 ∨ mdc ≥ GPIO_NUM_MAX
              · rw [if_pos h2]
              · rw [if_neg h2]
                by_cases h3 : mdio < -1 ∨ mdio ≥ GPIO_NUM_MAX
                · rw [if_pos h3]
                · rw [if_neg h3]
                  by_cases h4 : pw < -1 ∨ pw ≥ GPIO_NUM_MAX
                  · rw [if_pos h4]
                  · exact absurd hbad (by tauto)

/-- Witness for C5 (amended): a null hostname on the fresh manager records
INVALID_PARAMETER and lands in ERROR_STATE with ETH.begin never invoked; an
out-of-range MDC pin (40) with a valid hostname, and a static call with an
unset (0.0.0.0) local address, both fail with the manager unchanged. -/
theorem c5_invalid_parameter_amended_witness :
    ((internalInit mkEthMgr none 0 23 18 (-1) false true 0 true true).ethBeginCalled = false ∧
     (internalInit mkEthMgr none 0 23 18 (-1) false true 0 true true).mgr.lastError
       = .INVALID_PARAMETER ∧
     (internalInit mkEthMgr none 0 23 18 (-1) false true 0 true true).mgr.connectionState
       = .ERROR_STATE) ∧
    internalInit mkEthMgr (some "esp32") 0 40 18 (-1) false true 0 true true
      = { ok := false, mgr := mkEthMgr, ethBeginCalled := false } ∧
    internalInitStatic mkEthMgr (some "esp32") 0 1 1 0 0 0 23 18 (-1) true true true
      = { ok := false, mgr := mkEthMgr, ethBeginCalled := false } := by
  have h := c5_invalid_parameter_amended mkEthMgr none 0 23 18 (-1) false true 0 true true
    0 0 0 0 0 true true true (by decide)
  have h2 := c5_invalid_parameter_amended mkEthMgr (some "esp32") 0 40 18 (-1) false true 0
    true true 0 1 1 0 0 true true true (by decide)
  refine ⟨?_, ?_, ?_⟩
  · have hres := h.1 (Or.inl rfl)
    exact ⟨hres.2.1, hres.2.2.1, hres.2.2.2⟩
  · exact h2.2.1 (by decide) (by decide) (by decide)
  · exact h2.2.2 (by decide)

end EthMgrModel

namespace EthMgrModel

/-- Claim C6: for a started manager with its event group present,
waitForConnection returns success immediately (zero time spent blocked) when
the connected signal bit is already set, and returns CONNECTION_TIMEOUT
whenever the connected signal is never set during the wait (for any positive
timeout), whether the loop runs out of time or exits early through the
error-state escape. -/
theorem c6_wait_for_connection (m : EthMgr) (timeout_ms : Nat) (bitAt errAt : Nat → Bool)
    (hphy : m.phyStarted = true) (hgrp : m.ethEventGroupExists = true)
    (htm : 0 < timeout_ms) :
    (m.bitConnected = true →
      waitForConnection m timeout_ms bitAt errAt = (.OK, 0)) ∧
    (m.bitConnected = false → (∀ t, bitAt t = false) →
      (waitForConnection m timeout_ms bitAt errAt).1 = .CONNECTION_TIMEOUT) := by
  have htm0 : ¬ timeout_ms = 0 := by omega
  constructor
  · intro hbit
    unfold waitForConnection
    rw [if_neg htm0, if_pos (by simp [isConnected, hphy, hgrp, hbit])]
  · intro hbit hnever
    unfold waitForConnection
    rw [if_neg htm0, if_neg (by simp [isConnected, hphy, hgrp, hbit]),
      if_neg (by simp [hgrp]), if_neg (by simp [hphy])]
    exact waitLoop_never_ok bitAt errAt timeout_ms hnever timeout_ms 0

/-- Witness for C6: on the connected state mConn a 100 ms wait returns OK
having waited 0 ms; on the started-but-unconnected state mStarted with the
signal never raised, a 100 ms wait returns CONNECTION_TIMEOUT. -/
theorem c6_wait_for_connection_witness :
    waitForConnection mConn 100 (fun _ => false) (fun _ => false) = (.OK, 0) ∧
    (waitForConnection mStarted 100 (fun _ => false) (fun _ => false)).1
      = .CONNECTION_TIMEOUT := by
  constructor
  · exact (c6_wait_for_connection mConn 100 (fun _ => false) (fun _ => false)
      (by decide) (by decide) (by decide)).1 (by decide)
  · exact (c6_wait_for_connection mStarted 100 (fun _ => false) (fun _ => false)
      (by decide) (by decide) (by decide)).2 (by decide) (fun _ => rfl)

/-- Claim C10: waitForConnection called with a timeout of exactly 0 ms
returns INVALID_PARAMETER immediately — before the connected-signal check
(the result is INVALID_PARAMETER even on a connected manager) and with zero
time spent waiting — and no other timeout value ever yields
INVALID_PARAMETER. -/
theorem c10_zero_timeout (m : EthMgr) (bitAt errAt : Nat → Bool) (t : Nat) :
    waitForConnection m 0 bitAt errAt = (.INVALID_PARAMETER, 0) ∧
    (t ≠ 0 → (waitForConnection m t bitAt errAt).1 ≠ .INVALID_PARAMETER) := by
  constructor
  · rfl
  · intro ht
    unfold waitForConnection
    rw [if_neg ht]
    split
    · simp
    · split
      · simp
      · split
        · simp
        · exact waitLoop_ne_invalid bitAt errAt t t 0

/-- Witness for C10: a zero timeout on the connected state mConn is rejected
as INVALID_PARAMETER even though the signal bit is set, and a 100 ms wait on
the fresh manager does not produce INVALID_PARAMETER. -/
theorem c10_zero_timeout_witness :
    waitForConnection mConn 0 (fun _ => false) (fun _ => false) = (.INVALID_PARAMETER, 0) ∧
    (waitForConnection mkEthMgr 100 (fun _ => false) (fun _ => false)).1
      ≠ .INVALID_PARAMETER := by
  constructor
  · exact (c10_zero_timeout mConn (fun _ => false) (fun _ => false) 100).1
  · exact (c10_zero_timeout mkEthMgr (fun _ => false) (fun _ => false) 100).2 (by decide)

end EthMgrModel
